import Mathlib

/-!
Verification development for the tweeps-payment repository.

Shallow embedding of the payment-gateway client (`src/lib/mpesa.ts`, with the
variant client in `unnamed/part_003`), the callback route
(`src/app/api/payments/callback/route.ts`) and the transaction ledger
(`src/lib/transactions-manager.ts`).

Modelling conventions:
- JS numbers that hold timestamps, amounts and counters are modelled as `Int`
  (the claims under study do not hinge on floating-point rounding).
- Fallible code (`throw`) is modelled with `Except String`.
- Network I/O is modelled by passing the response the `fetch` call would
  produce as an explicit argument; whether a fetch happened is part of the
  returned value.
- Log output is modelled as a list of entries, an entry being a list of
  string key/value fields.
-/

/-- JS `a || b` on strings: an empty (falsy) or absent value falls back. -/
def jsOr (a : Option String) (b : String) : String :=
  match a with
  | some s => if s = "" then b else s
  | none => b

/-- JS `a || b` on numbers: `0` (falsy) or absent falls back. -/
def jsOrInt (a : Option Int) (b : Int) : Int :=
  match a with
  | some x => if x = 0 then b else x
  | none => b

/-- The RFC 4648 base64 alphabet, as used by `Buffer.toString('base64')`. -/
def base64Alphabet : List Char :=
  "ABCDEFGHIJKLMNOPQRSTUVWXYZabcdefghijklmnopqrstuvwxyz0123456789+/".data

/-- The base64 digit for a 6-bit group. -/
def base64Char (n : Nat) : Char :=
  base64Alphabet.getD n 'A'

/-- Base64-encode a byte sequence (RFC 4648, with padding). -/
def base64EncodeBytes : List Nat → List Char
  | [] => []
  | [b1] => [base64Char (b1 / 4), base64Char (b1 % 4 * 16), '=', '=']
  | [b1, b2] =>
    [base64Char (b1 / 4), base64Char (b1 % 4 * 16 + b2 / 16),
     base64Char (b2 % 16 * 4), '=']
  | b1 :: b2 :: b3 :: rest =>
    base64Char (b1 / 4) :: base64Char (b1 % 4 * 16 + b2 / 16) ::
    base64Char (b2 % 16 * 4 + b3 / 64) :: base64Char (b3 % 64) ::
    base64EncodeBytes rest

/-- `Buffer.from(s).toString('base64')`: base64 of the UTF-8 bytes of `s`. -/
def base64EncodeString (s : String) : String :=
  String.mk (base64EncodeBytes (s.toUTF8.toList.map (fun b => b.toNat)))

/-! ## Phone-number normalization (`MpesaAPI.formatPhoneNumber`) -/

/-- `phone.replace(/\D/g, '')`: keep only the digit characters. -/
def cleanPhone (phone : String) : String :=
  String.mk (phone.data.filter Char.isDigit)

/-- JS `s.startsWith(p)`. Stated over the character lists (all strings
involved are ASCII, where JS code-unit indexing coincides with character
indexing). -/
def strStartsWith (s p : String) : Bool :=
  s.data.take p.length == p.data

/-- JS `s.slice(n)` for `n ≥ 0`, over the character list. -/
def strDrop (s : String) (n : Nat) : String :=
  String.mk (s.data.drop n)

/-- JS `s.slice(0, n)` for `n ≥ 0`, over the character list. -/
def strTake (s : String) (n : Nat) : String :=
  String.mk (s.data.take n)

/-- `MpesaAPI.formatPhoneNumber` (src/lib/mpesa.ts lines 269-282): strips
non-digits, then classifies the remaining digit string. -/
def formatPhoneNumber (phone : String) : Except String String :=
  let cleaned := cleanPhone phone
  if cleaned.length = 9 then
    Except.ok ("254" ++ cleaned)
  else if cleaned.length = 10 ∧ strStartsWith cleaned "0" = true then
    Except.ok ("254" ++ strDrop cleaned 1)
  else if cleaned.length = 12 ∧ strStartsWith cleaned "254" = true then
    Except.ok cleaned
  else
    Except.error "Invalid phone number format"

/-- `MpesaAPI.maskPhoneNumber` (src/lib/mpesa.ts lines 284-287): first six and
last two characters of the normalized number, middle replaced by `****`. -/
def maskPhoneNumber (phone : String) : Except String String := do
  let formatted ← formatPhoneNumber phone
  return strTake formatted 6 ++ "****" ++ strDrop formatted (formatted.length - 2)

/-! ## Transaction ledger (`src/lib/transactions-manager.ts`) -/

/-- The `status` union type of a `Transaction`. -/
inductive TxStatus where
  | Completed
  | Pending
deriving DecidableEq

/-- The persisted `Transaction` record. `phoneNumber` is optional: the
callback route appends records without it. -/
structure Transaction where
  id : String
  phoneNumber : Option String
  amount : Int
  status : TxStatus
  timestamp : Int
deriving DecidableEq

/-- The caller-supplied part of a transaction
(`Omit<Transaction, 'id' | 'timestamp'>`). -/
structure NewTx where
  phoneNumber : Option String
  amount : Int
  status : TxStatus
deriving DecidableEq

/-- `TransactionsManager.MAX_TRANSACTIONS`. -/
def MAX_TRANSACTIONS : Nat := 40

/-- `TransactionsManager.addTransaction` (lines 28-42): builds the new record
(with environment-supplied `id` and `Date.now()` timestamp), `unshift`s it and
truncates with `slice(0, MAX_TRANSACTIONS)`. Returns the new record and the
persisted collection. -/
def addTransaction (tx : NewTx) (id : String) (now : Int)
    (transactions : List Transaction) : Transaction × List Transaction :=
  let newTransaction : Transaction :=
    ⟨id, tx.phoneNumber, tx.amount, tx.status, now⟩
  (newTransaction, (newTransaction :: transactions).take MAX_TRANSACTIONS)

/-- `TransactionsManager.getDailyStats` (lines 44-58). The local midnight of
the reference time is environment-dependent, so it is passed in as `midnight`;
the function filters on `timestamp >= midnight` and folds the revenue exactly
as the source `reduce` does. -/
def getDailyStats (transactions : List Transaction) (midnight : Int) :
    Nat × Int :=
  let todayTransactions :=
    transactions.filter (fun t => decide (midnight ≤ t.timestamp))
  (todayTransactions.length,
   todayTransactions.foldl
     (fun sum t => if t.status = TxStatus.Completed then sum + t.amount else sum)
     0)

/-- Sequential appends: fold `addTransaction` over a list of
(new record, id, timestamp) triples. -/
def seqAppend (items : List (NewTx × String × Int))
    (l : List Transaction) : List Transaction :=
  items.foldl (fun acc it => (addTransaction it.1 it.2.1 it.2.2 acc).2) l

/-- The full record an `(NewTx, id, timestamp)` triple becomes. -/
def mkRecord (it : NewTx × String × Int) : Transaction :=
  ⟨it.2.1, it.1.phoneNumber, it.1.amount, it.1.status, it.2.2⟩

/-! ## Callback route (`src/app/api/payments/callback/route.ts`) -/

/-- A `CallbackMetadata.Item`. Metadata values are modelled as integers
(`Number` applied to an already-numeric value is the identity). -/
structure CallbackItem where
  name : String
  value : Int
deriving DecidableEq

/-- The `Body.stkCallback` envelope of a parsed callback. -/
structure STKCallback where
  resultCode : Int
  resultDesc : String
  checkoutRequestID : String
  callbackMetadata : Option (List CallbackItem)
deriving DecidableEq

/-- The JSON body of the route's HTTP response. -/
inductive CbBody where
  | received
  | errorBody
deriving DecidableEq

/-- The route's HTTP response: status code and body. -/
structure CbResponse where
  status : Nat
  body : CbBody
deriving DecidableEq

/-- `NextResponse.json({received: true})` (HTTP 200). -/
def okResponse : CbResponse := ⟨200, CbBody.received⟩

/-- `NextResponse.json({error: ...}, {status: 500})`. -/
def errResponse : CbResponse := ⟨500, CbBody.errorBody⟩

/-- The callback route handler `POST` (lines 27-65). `body = none` models a
request whose JSON parse or envelope access threw (malformed body); the
try/catch then answers 500 without touching the ledger. `id`/`now` are the
environment inputs `addTransaction` reads. Returns the response and the
persisted ledger. -/
def POST (body : Option STKCallback) (id : String) (now : Int)
    (ledger : List Transaction) : CbResponse × List Transaction :=
  match body with
  | none => (errResponse, ledger)
  | some cb =>
    let callbackData := cb.callbackMetadata.getD []
    if cb.resultCode = 0 then
      match callbackData.find? (fun item => item.name == "Amount") with
      | none => (errResponse, ledger)
      | some amount =>
        (okResponse,
         (addTransaction ⟨none, amount.value, TxStatus.Completed⟩ id now ledger).2)
    else
      (okResponse,
       (addTransaction ⟨none, 0, TxStatus.Pending⟩ id now ledger).2)

/-! ## Request executor (`MpesaAPI.makeRequest`, src/lib/mpesa.ts 172-255) -/

/-- What one `fetch` of the payment endpoint yields, as read by the executor:
HTTP success flag and status text, and the JSON body's fields. -/
structure HttpResp where
  ok : Bool
  statusText : String
  errorCode : Option String
  errorMessage : Option String
  responseCode : String
  responseDescription : Option String
deriving DecidableEq

/-- The retry loop of `makeRequest`. `fetch n` is the response attempt `n`
receives; `remaining` is the number of attempts left (`retries - attempt + 1`).
Per attempt: a non-2xx response throws `errorMessage || statusText` (message
forced to `'Invalid Access Token'` when `errorCode` says so); a 2xx response
with `ResponseCode != '0'` throws `ResponseDescription || 'Payment request
failed'`. The catch block rethrows immediately when the message is
`'Invalid Access Token'`, rethrows when no attempts remain, and otherwise
backs off and retries. Returns the outcome and the number of attempts made. -/
def makeRequestAux (fetch : Nat → HttpResp) :
    Nat → Nat → Except String HttpResp × Nat
  | _, 0 => (Except.error "Request failed after all retries", 0)
  | attempt, r + 1 =>
    let resp := fetch attempt
    if resp.ok = false then
      let msg :=
        if resp.errorCode = some "Invalid Access Token" then "Invalid Access Token"
        else jsOr resp.errorMessage resp.statusText
      if msg = "Invalid Access Token" then (Except.error msg, 1)
      else if r = 0 then (Except.error msg, 1)
      else
        let p := makeRequestAux fetch (attempt + 1) r
        (p.1, p.2 + 1)
    else if resp.responseCode ≠ "0" then
      let msg := jsOr resp.responseDescription "Payment request failed"
      if msg = "Invalid Access Token" then (Except.error msg, 1)
      else if r = 0 then (Except.error msg, 1)
      else
        let p := makeRequestAux fetch (attempt + 1) r
        (p.1, p.2 + 1)
    else
      (Except.ok resp, 1)

/-- `MpesaAPI.makeRequest` with its attempt budget (`retries = 3` at the call
sites), starting at attempt 1. -/
def makeRequest (fetch : Nat → HttpResp) (retries : Nat) :
    Except String HttpResp × Nat :=
  makeRequestAux fetch 1 retries

/-! ## Token acquisition (`MpesaAPI.getAccessToken` and `isTokenValid`) -/

/-- The gateway configuration (`types/mpesa.ts MpesaConfig`). -/
structure MpesaConfig where
  consumerKey : String
  consumerSecret : String
  shortcode : String
  passkey : String
  callbackUrl : String
  baseURL : String
deriving DecidableEq

/-- The client's token cache fields (`accessToken`, `tokenExpiry`). An empty
`accessToken` is the falsy initial `""`. -/
structure TokenState where
  accessToken : String
  tokenExpiry : Int
deriving DecidableEq

/-- What the OAuth fetch yields: HTTP success flag, status text, raw body
text, and the JSON body's `access_token` / `expires_in` fields. -/
structure TokenResponse where
  ok : Bool
  statusText : String
  bodyText : String
  access_token : Option String
  expires_in : Option Int
deriving DecidableEq

/-- The OAuth request the client builds when it fetches a token. -/
structure FetchRequest where
  url : String
  authHeader : String
deriving DecidableEq

/-- The token endpoint URL. -/
def tokenUrl (cfg : MpesaConfig) : String :=
  cfg.baseURL ++ "/oauth/v1/generate?grant_type=client_credentials"

/-- `Authorization: Basic base64(consumerKey:consumerSecret)`. -/
def basicAuth (cfg : MpesaConfig) : String :=
  "Basic " ++ base64EncodeString (cfg.consumerKey ++ ":" ++ cfg.consumerSecret)

/-- `MpesaAPI.isTokenValid` (src/lib/mpesa.ts lines 134-136):
`Boolean(this.accessToken && this.tokenExpiry > Date.now())` — no skew
buffer. -/
def isTokenValid (s : TokenState) (now : Int) : Bool :=
  !(s.accessToken == "") && decide (now < s.tokenExpiry)

/-- One log entry: a list of string key/value fields. -/
def LogEntry : Type := List (String × String)

/-- `MpesaAPI.getAccessToken` of src/lib/mpesa.ts (lines 44-132) as run by a
single sequential call on a fresh client (`tokenLock` is `null`, so the
await-the-lock fast path is skipped): logs "Requesting new access token",
then returns the cached token when `isTokenValid()`, else exchanges the
Base64 client credentials for a new token and logs the `console.info` entry
that carries the raw token value. Returns (outcome, new cache state, the
fetch performed if any, emitted log entries). -/
def getAccessTokenMain (cfg : MpesaConfig) (s : TokenState) (now : Int)
    (resp : TokenResponse) :
    Except String String × TokenState × Option FetchRequest × List LogEntry :=
  let requestLog : LogEntry := [("message", "Requesting new access token")]
  if isTokenValid s now then
    (Except.ok s.accessToken, s, none, [requestLog])
  else
    let req : FetchRequest := ⟨tokenUrl cfg, basicAuth cfg⟩
    if resp.ok = false then
      (Except.error
         ("Failed to get access token: " ++ resp.statusText ++ ". " ++ resp.bodyText),
       s, some req,
       [requestLog, [("message", "Failed to get access token")]])
    else
      match resp.access_token with
      | none =>
        (Except.error "Invalid token response from server", s, some req,
         [requestLog, [("message", "Invalid token response")]])
      | some tok =>
        let s2 : TokenState := ⟨tok, now + jsOrInt resp.expires_in 3000 * 1000⟩
        (Except.ok tok, s2, some req,
         [requestLog,
          [("message", "New access token obtained"), ("token", tok)],
          [("message", "New access token obtained")]])

/-- `MpesaAPI.getAccessToken` of the variant client in `unnamed/part_003`
(lines 36-87): serves the cache while
`accessToken && tokenExpiry > Date.now() + 30000` (a 30-second buffer), else
exchanges the Base64 client credentials; any failure is wrapped as
"Authentication failed". Returns (outcome, new cache state, the fetch
performed if any). -/
def getAccessToken3 (cfg : MpesaConfig) (s : TokenState) (now : Int)
    (resp : TokenResponse) :
    Except String String × TokenState × Option FetchRequest :=
  if s.accessToken ≠ "" ∧ now + 30000 < s.tokenExpiry then
    (Except.ok s.accessToken, s, none)
  else
    let req : FetchRequest := ⟨tokenUrl cfg, basicAuth cfg⟩
    if resp.ok = false then
      (Except.error
         ("Authentication failed: Error: Failed to get access token: " ++
          resp.statusText ++ ". " ++ resp.bodyText),
       s, some req)
    else
      match resp.access_token with
      | none =>
        (Except.error "Authentication failed: Error: Invalid token response from server",
         s, some req)
      | some tok =>
        (Except.ok tok, ⟨tok, now + jsOrInt resp.expires_in 3000 * 1000⟩, some req)

/-! ## Concurrent token acquisition (two callers, cooperative semantics)

`getAccessToken` in src/lib/mpesa.ts guards refreshes with `tokenLock`, but
the lock is created as `new Promise((resolve) => resolve())` — an already
resolved promise. A caller that finds `tokenLock` set merely awaits a
resolved promise (one microtask suspension) and proceeds. The machine below
is the cooperative small-step semantics of two callers A and B sharing the
cache fields and `tokenLock`; suspension points are exactly the `await`s of
the source (awaiting the lock, awaiting the fetch). -/

/-- Where one caller's coroutine is suspended. -/
inductive CallerPhase where
  | start
  | afterLockAwait
  | awaitingFetch
  | done (token : String)
deriving DecidableEq

/-- Shared client state plus both callers' phases and the count of token
fetches started. -/
structure ConcState where
  accessToken : String
  tokenExpiry : Int
  lockSet : Bool
  fetchCount : Nat
  phaseA : CallerPhase
  phaseB : CallerPhase
deriving DecidableEq

/-- The synchronous segment from the "Requesting new access token" log to the
fetch: set `tokenLock`, re-check `isTokenValid()`, and either return the
cached token or start a fetch (suspending at its `await`). -/
def runToFetch (now : Int) (s : ConcState) : ConcState × CallerPhase :=
  if isTokenValid ⟨s.accessToken, s.tokenExpiry⟩ now then
    ({ s with lockSet := true }, CallerPhase.done s.accessToken)
  else
    ({ s with lockSet := true, fetchCount := s.fetchCount + 1 },
     CallerPhase.awaitingFetch)

/-- Advance one caller by one scheduler step. `resp` is the (token,
expires_in) body every fetch resolves with. -/
def stepCaller (now : Int) (resp : String × Int) (s : ConcState)
    (ph : CallerPhase) : ConcState × CallerPhase :=
  match ph with
  | CallerPhase.start =>
    if s.lockSet then (s, CallerPhase.afterLockAwait)
    else runToFetch now s
  | CallerPhase.afterLockAwait =>
    if isTokenValid ⟨s.accessToken, s.tokenExpiry⟩ now then
      (s, CallerPhase.done s.accessToken)
    else runToFetch now s
  | CallerPhase.awaitingFetch =>
    ({ s with
        accessToken := resp.1,
        tokenExpiry := now + jsOrInt (some resp.2) 3000 * 1000,
        lockSet := false },
     CallerPhase.done resp.1)
  | CallerPhase.done t => (s, CallerPhase.done t)

/-- Run one scheduler step for caller A (`true`) or B (`false`). -/
def stepSys (now : Int) (resp : String × Int) (who : Bool) (s : ConcState) :
    ConcState :=
  if who then
    let p := stepCaller now resp s s.phaseA
    { p.1 with phaseA := p.2 }
  else
    let p := stepCaller now resp s s.phaseB
    { p.1 with phaseB := p.2 }

/-- Run a whole schedule of steps. -/
def runSchedule (now : Int) (resp : String × Int) (sched : List Bool)
    (s : ConcState) : ConcState :=
  sched.foldl (fun st w => stepSys now resp w st) s

/-- Two callers entering `getAccessToken` on a fresh client. -/
def concInit : ConcState :=
  ⟨"", 0, false, 0, CallerPhase.start, CallerPhase.start⟩

/-! ## Demo inputs used by witnesses, counterexamples and failing-input runs -/

/-- A concrete gateway configuration. -/
def cfgDemo : MpesaConfig :=
  ⟨"ck", "cs", "174379", "pk", "https://example.com/cb", "https://api.example"⟩

/-- A successful OAuth response carrying a token. -/
def respOkDemo : TokenResponse := ⟨true, "OK", "", some "SECRET_TOKEN", some 3600⟩

/-- 45 transactions to append sequentially (record i carries amount,
id and timestamp i). -/
def demoItems : List (NewTx × String × Int) :=
  (List.range 45).map
    (fun i => (⟨none, (i : Int), TxStatus.Completed⟩, toString i, (i : Int)))

/-- Fetch oracle for the executor: attempt 1 receives a 2xx business
rejection (`ResponseCode` "1"), every later attempt a 2xx acceptance. -/
def bizThenOk : Nat → HttpResp :=
  fun n =>
    if n = 1 then ⟨true, "OK", none, none, "1", some "Rejected by gateway"⟩
    else ⟨true, "OK", none, none, "0", some "Accepted"⟩

/-! ## Helper lemmas -/

/-- Truncating the second summand before an append does not change a
truncation to a smaller or equal size. -/
theorem take_append_take {α : Type} (m n : Nat) (h : m ≤ n)
    (xs ys : List α) : (xs ++ ys.take n).take m = (xs ++ ys).take m := by
  induction xs generalizing m n with
  | nil =>
    simp only [List.nil_append, List.take_take]
    rw [Nat.min_eq_left h]
  | cons x xs ih =>
    cases m with
    | zero => simp
    | succ k =>
      simp only [List.cons_append, List.take_succ_cons]
      rw [ih k n (Nat.le_of_succ_le h)]

/-- Folding `addTransaction` over a list of pending records, starting from a
collection within capacity, keeps the newest `MAX_TRANSACTIONS` records in
newest-first order. -/
theorem seqAppend_eq (items : List (NewTx × String × Int))
    (l : List Transaction) (h : l.length ≤ MAX_TRANSACTIONS) :
    seqAppend items l =
      ((items.map mkRecord).reverse ++ l).take MAX_TRANSACTIONS := by
  induction items generalizing l with
  | nil =>
    simp only [seqAppend, List.foldl_nil, List.map_nil, List.reverse_nil,
      List.nil_append]
    exact (List.take_of_length_le h).symm
  | cons it rest ih =>
    have hstep : seqAppend (it :: rest) l =
        seqAppend rest ((mkRecord it :: l).take MAX_TRANSACTIONS) := by
      simp only [seqAppend, List.foldl_cons, addTransaction, mkRecord]
    rw [hstep, ih _ (by simp [List.length_take])]
    rw [take_append_take MAX_TRANSACTIONS MAX_TRANSACTIONS (Nat.le_refl _)]
    simp [List.reverse_cons, List.append_assoc]

/-- The revenue fold of `getDailyStats` computes the sum of the amounts of
the completed records. -/
theorem foldl_completed_sum (l : List Transaction) (a : Int) :
    l.foldl
      (fun sum t => if t.status = TxStatus.Completed then sum + t.amount else sum) a
    = a + ((l.filter (fun t => t.status == TxStatus.Completed)).map
            (fun t => t.amount)).sum := by
  induction l generalizing a with
  | nil => simp
  | cons t ts ih =>
    by_cases h : t.status = TxStatus.Completed
    · simp only [List.foldl_cons, if_pos h, List.filter_cons, h]
      rw [ih]
      simp [Int.add_assoc]
    · simp only [List.foldl_cons, if_neg h, List.filter_cons]
      have hb : (t.status == TxStatus.Completed) = false := by
        simp [h]
      rw [hb, ih]
      simp

/-- A digit-only string is unchanged by `cleanPhone`. -/
theorem cleanPhone_of_digits (s : String)
    (h : s.data.all Char.isDigit = true) : cleanPhone s = s := by
  unfold cleanPhone
  rw [List.filter_eq_self.mpr (List.all_eq_true.mp h)]

/-! ## Claim theorems -/

/-- C1. A parsed callback with `ResultCode = 0` whose metadata lookup of
"Amount" yields value `v` makes the route append exactly one record with
status Completed and amount `v` and answer `{received: true}`; a callback
with `ResultCode ≠ 0` makes it append exactly one record with status Pending
and amount 0 and answer `{received: true}` without error. -/
theorem c1_callback_records_outcome (cb : STKCallback) (a : CallbackItem)
    (id : String) (now : Int) (ledger : List Transaction) :
    (cb.resultCode = 0 →
      (cb.callbackMetadata.getD []).find? (fun item => item.name == "Amount")
        = some a →
      POST (some cb) id now ledger =
        (okResponse,
         (Transaction.mk id none a.value TxStatus.Completed now :: ledger).take
           MAX_TRANSACTIONS))
    ∧ (cb.resultCode ≠ 0 →
      POST (some cb) id now ledger =
        (okResponse,
         (Transaction.mk id none 0 TxStatus.Pending now :: ledger).take
           MAX_TRANSACTIONS)) := by
  constructor
  · intro h0 hfind
    simp [POST, h0, hfind, addTransaction]
  · intro hne
    simp [POST, hne, addTransaction]

/-- C1 witness: a completed callback with Amount 500 appends the Completed
record; a failed callback (result code 1032) appends the Pending record. -/
theorem c1_witness :
    POST (some ⟨0, "Success", "w1", some [⟨"Amount", 500⟩]⟩) "id1" 100 [] =
      (okResponse, [Transaction.mk "id1" none 500 TxStatus.Completed 100]) ∧
    POST (some ⟨1032, "Cancelled", "w2", none⟩) "id2" 100 [] =
      (okResponse, [Transaction.mk "id2" none 0 TxStatus.Pending 100]) := by
  constructor
  · have h := (c1_callback_records_outcome ⟨0, "Success", "w1", some [⟨"Amount", 500⟩]⟩
      ⟨"Amount", 500⟩ "id1" 100 []).1 rfl (by decide)
    simpa using h
  · have h := (c1_callback_records_outcome ⟨1032, "Cancelled", "w2", none⟩
      ⟨"Amount", 500⟩ "id2" 100 []).2 (by decide)
    simpa using h

/-- C2. Any append leaves at most 40 records, puts the new record at the
head, and keeps the new record followed by the newest 39 old records (only
the oldest are dropped); appending 45 records sequentially to an empty
ledger leaves exactly the 40 most recently appended, newest-first. -/
theorem c2_ledger_capacity (tx : NewTx) (id : String) (now : Int)
    (l : List Transaction) (items : List (NewTx × String × Int)) :
    ((addTransaction tx id now l).2.length ≤ 40)
    ∧ ((addTransaction tx id now l).2.head? = some (addTransaction tx id now l).1)
    ∧ ((addTransaction tx id now l).2 = (addTransaction tx id now l).1 :: l.take 39)
    ∧ (items.length = 45 →
        seqAppend items [] = (items.map mkRecord).reverse.take 40
        ∧ (seqAppend items []).length = 40) := by
  refine ⟨?_, ?_, ?_, ?_⟩
  · simp [addTransaction, MAX_TRANSACTIONS]
  · simp [addTransaction, MAX_TRANSACTIONS]
  · simp [addTransaction, MAX_TRANSACTIONS]
  · intro h45
    have heq := seqAppend_eq items [] (by simp [MAX_TRANSACTIONS])
    constructor
    · simpa [MAX_TRANSACTIONS] using heq
    · rw [heq]
      simp [MAX_TRANSACTIONS, List.length_take, h45]

/-- C2 witness: the 45 concrete records of `demoItems` appended sequentially
to the empty ledger leave the newest 40 in newest-first order. -/
theorem c2_witness :
    demoItems.length = 45 ∧
    seqAppend demoItems [] = (demoItems.map mkRecord).reverse.take 40 := by
  have hlen : demoItems.length = 45 := by
    rfl
  exact ⟨hlen,
    ((c2_ledger_capacity ⟨none, 0, TxStatus.Pending⟩ "x" 0 [] demoItems).2.2.2
      hlen).1⟩

/-- C3. On digit-only inputs, normalization prefixes 9-digit numbers with
"254", replaces the leading "0" of 0-leading 10-digit numbers with "254",
passes 254-leading 12-digit numbers through, and rejects every other shape;
concretely "0712345678" and "712345678" map to "254712345678",
"254712345678" is unchanged and "12345" is rejected. -/
theorem c3_phone_normalization :
    (∀ s : String, s.data.all Char.isDigit = true →
      ((s.length = 9 → formatPhoneNumber s = Except.ok ("254" ++ s))
       ∧ (s.length = 10 → strStartsWith s "0" = true →
           formatPhoneNumber s = Except.ok ("254" ++ strDrop s 1))
       ∧ (s.length = 12 → strStartsWith s "254" = true →
           formatPhoneNumber s = Except.ok s)
       ∧ (¬s.length = 9 → ¬(s.length = 10 ∧ strStartsWith s "0" = true) →
           ¬(s.length = 12 ∧ strStartsWith s "254" = true) →
           formatPhoneNumber s = Except.error "Invalid phone number format")))
    ∧ formatPhoneNumber "0712345678" = Except.ok "254712345678"
    ∧ formatPhoneNumber "712345678" = Except.ok "254712345678"
    ∧ formatPhoneNumber "254712345678" = Except.ok "254712345678"
    ∧ formatPhoneNumber "12345" = Except.error "Invalid phone number format" := by
  refine ⟨?_, by rfl, by rfl, by rfl, by rfl⟩
  intro s hdig
  have hc : cleanPhone s = s := cleanPhone_of_digits s hdig
  refine ⟨?_, ?_, ?_, ?_⟩
  · intro h9
    simp only [formatPhoneNumber, hc]
    rw [if_pos h9]
  · intro h10 h0
    simp only [formatPhoneNumber, hc]
    rw [if_neg (by omega), if_pos ⟨h10, h0⟩]
  · intro h12 h254
    simp only [formatPhoneNumber, hc]
    rw [if_neg (by omega), if_neg (by rintro ⟨h, _⟩; omega),
        if_pos ⟨h12, h254⟩]
  · intro hn9 hn10 hn12
    simp only [formatPhoneNumber, hc]
    rw [if_neg hn9, if_neg hn10, if_neg hn12]

/-- C3 witness: the general clauses applied to the concrete digit strings
"712345678" (9 digits) and "0712345678" (10 digits, leading 0). -/
theorem c3_witness :
    formatPhoneNumber "712345678" = Except.ok ("254" ++ "712345678") ∧
    formatPhoneNumber "0712345678" = Except.ok ("254" ++ strDrop "0712345678" 1) := by
  constructor
  · exact ((c3_phone_normalization.1 "712345678" (by decide)).1 (by decide))
  · exact ((c3_phone_normalization.1 "0712345678" (by decide)).2.1 (by decide) (by rfl))

/-- C6. Daily stats count every record at or after the reference midnight and
sum amounts over the completed ones only; a Pending record with amount 50 in
the window contributes 1 to the count and 0 to the revenue. -/
theorem c6_daily_stats (txs : List Transaction) (m : Int) :
    ((getDailyStats txs m).1
       = txs.countP (fun t => decide (m ≤ t.timestamp)))
    ∧ ((getDailyStats txs m).2
       = (((txs.filter (fun t => decide (m ≤ t.timestamp))).filter
             (fun t => t.status == TxStatus.Completed)).map
            (fun t => t.amount)).sum)
    ∧ getDailyStats [Transaction.mk "p" none 50 TxStatus.Pending 10] 0 = (1, 0) := by
  refine ⟨?_, ?_, by rfl⟩
  · simp [getDailyStats, List.countP_eq_length_filter]
  · simp only [getDailyStats]
    rw [foldl_completed_sum]
    simp

/-- C7. A malformed callback — unparseable body or envelope (`body = none`),
or `ResultCode = 0` with no "Amount" metadata item — yields the HTTP 500
error response and leaves the ledger exactly as it was. -/
theorem c7_malformed_callback (id : String) (now : Int)
    (ledger : List Transaction) (cb : STKCallback) :
    (POST none id now ledger = (errResponse, ledger))
    ∧ errResponse.status = 500
    ∧ (cb.resultCode = 0 →
        (cb.callbackMetadata.getD []).find? (fun item => item.name == "Amount")
          = none →
        POST (some cb) id now ledger = (errResponse, ledger)) := by
  refine ⟨rfl, rfl, ?_⟩
  intro h0 hfind
  simp [POST, h0, hfind]

/-- C7 witness: a completed-result callback with metadata lacking "Amount"
answers 500 and leaves a one-record ledger unchanged. -/
theorem c7_witness :
    POST (some ⟨0, "Success", "w3", some [⟨"PhoneNumber", 254712345678⟩]⟩)
        "id3" 100 [Transaction.mk "old" none 7 TxStatus.Completed 5] =
      (errResponse, [Transaction.mk "old" none 7 TxStatus.Completed 5]) :=
  (c7_malformed_callback "id3" 100
      [Transaction.mk "old" none 7 TxStatus.Completed 5]
      ⟨0, "Success", "w3", some [⟨"PhoneNumber", 254712345678⟩]⟩).2.2
    rfl (by rfl)

/-- C10. Normalization first discards every non-digit character, so its
result depends only on the digit subsequence of the input; in particular
"+254 712 345 678" and "0712-345-678" normalize to "254712345678" instead of
being rejected. -/
theorem c10_digits_only :
    (∀ s t : String, cleanPhone s = cleanPhone t →
      formatPhoneNumber s = formatPhoneNumber t)
    ∧ formatPhoneNumber "+254 712 345 678" = Except.ok "254712345678"
    ∧ formatPhoneNumber "0712-345-678" = Except.ok "254712345678" := by
  refine ⟨?_, by rfl, by rfl⟩
  intro s t h
  simp only [formatPhoneNumber, h]

/-- C10 witness: "+254 712 345 678" and "254712345678" have the same digit
subsequence, so they normalize identically. -/
theorem c10_witness :
    formatPhoneNumber "+254 712 345 678" = formatPhoneNumber "254712345678" :=
  c10_digits_only.1 "+254 712 345 678" "254712345678" (by rfl)

/-- C4 counterexample. Attempt 1 receives a 2xx response with
`ResponseCode = "1"` (a gateway business rejection), yet the executor makes a
second attempt and returns that attempt's success: with a budget of 3 it
performs 2 attempts and succeeds, where the claim requires it to fail
terminally after the first response with no further retry. -/
theorem c4_counterexample :
    makeRequest bizThenOk 3 =
      (Except.ok ⟨true, "OK", none, none, "0", some "Accepted"⟩, 2) := by
  rfl

/-- C4 amended. A 2xx response with `ResponseCode ≠ "0"` fails the attempt
with the gateway's description, but unless that message is literally
"Invalid Access Token" it is retried like any other failure while attempts
remain; it is terminal only when the message is "Invalid Access Token" or on
the final attempt of the budget. -/
theorem c4_business_rejection_retried (fetch : Nat → HttpResp)
    (attempt r : Nat) (hok : (fetch attempt).ok = true)
    (hcode : (fetch attempt).responseCode ≠ "0") :
    (jsOr (fetch attempt).responseDescription "Payment request failed"
        ≠ "Invalid Access Token" →
      makeRequestAux fetch attempt (r + 2) =
        ((makeRequestAux fetch (attempt + 1) (r + 1)).1,
         (makeRequestAux fetch (attempt + 1) (r + 1)).2 + 1))
    ∧ (jsOr (fetch attempt).responseDescription "Payment request failed"
        = "Invalid Access Token" →
      makeRequestAux fetch attempt (r + 2) =
        (Except.error "Invalid Access Token", 1))
    ∧ makeRequestAux fetch attempt 1 =
        (Except.error
          (jsOr (fetch attempt).responseDescription "Payment request failed"),
         1) := by
  refine ⟨?_, ?_, ?_⟩
  · intro hmsg
    simp [makeRequestAux, hok, hcode, hmsg]
  · intro hmsg
    simp [makeRequestAux, hok, hcode, hmsg]
  · simp [makeRequestAux, hok, hcode]

/-- C4 witness: the amended behavior at the concrete oracle `bizThenOk`
(attempt 1 business-rejected, attempt 2 accepted) with 3 attempts: the
rejection is retried, consuming one extra attempt. -/
theorem c4_witness :
    (bizThenOk 1).ok = true ∧ (bizThenOk 1).responseCode ≠ "0" ∧
    makeRequestAux bizThenOk 1 3 =
      ((makeRequestAux bizThenOk 2 2).1, (makeRequestAux bizThenOk 2 2).2 + 1) :=
  ⟨rfl, by decide,
   (c4_business_rejection_retried bizThenOk 1 1 rfl (by decide)).1 (by decide)⟩

/-- C5 counterexample. With a cached token expiring at t = 1000 and the
clock at t = 999 (1 ms before expiry), the client of src/lib/mpesa.ts
returns the cached token and performs no fetch, although
`999 ≥ 1000 − 30000`: for every refresh-skew constant of at least 30s the
claimed condition `now < expiresAt − skew` is violated, so the claimed
"cached iff within expiry minus skew" equivalence is false of this code. -/
theorem c5_counterexample :
    (getAccessTokenMain cfgDemo ⟨"cachedtok", 1000⟩ 999 respOkDemo).1
      = Except.ok "cachedtok"
    ∧ (getAccessTokenMain cfgDemo ⟨"cachedtok", 1000⟩ 999 respOkDemo).2.2.1
      = none
    ∧ ¬((999 : Int) < 1000 - 30000) := by
  exact ⟨rfl, rfl, by decide⟩

/-- C5 amended. In src/lib/mpesa.ts the cached token is returned without a
fetch iff it is non-empty and the current time is strictly before its expiry
(no skew buffer at all); in the `unnamed/part_003` variant, iff the expiry
exceeds the current time by more than 30000 ms (a 30s skew). In every other
case the client performs the OAuth exchange carrying
`Basic base64(consumerKey:consumerSecret)`. -/
theorem c5_token_cache_condition (cfg : MpesaConfig) (s : TokenState)
    (now : Int) (resp : TokenResponse) :
    ((getAccessTokenMain cfg s now resp).2.2.1 = none ↔
      (s.accessToken ≠ "" ∧ now < s.tokenExpiry))
    ∧ ((getAccessToken3 cfg s now resp).2.2 = none ↔
      (s.accessToken ≠ "" ∧ now + 30000 < s.tokenExpiry))
    ∧ (∀ req : FetchRequest,
        (getAccessTokenMain cfg s now resp).2.2.1 = some req →
        req = ⟨tokenUrl cfg, basicAuth cfg⟩)
    ∧ (∀ req : FetchRequest,
        (getAccessToken3 cfg s now resp).2.2 = some req →
        req = ⟨tokenUrl cfg, basicAuth cfg⟩) := by
  have hvalid : isTokenValid s now = true ↔
      (s.accessToken ≠ "" ∧ now < s.tokenExpiry) := by
    simp [isTokenValid]
  refine ⟨?_, ?_, ?_, ?_⟩
  · by_cases h : isTokenValid s now = true
    · simp only [getAccessTokenMain, if_pos h]
      simpa using hvalid.mp h
    · rw [← hvalid]
      simp only [getAccessTokenMain, if_neg h]
      cases hok : resp.ok with
      | false => simp [hok, h]
      | true => cases resp.access_token <;> simp [hok, h]
  · by_cases h : s.accessToken ≠ "" ∧ now + 30000 < s.tokenExpiry
    · simp [getAccessToken3, if_pos h, h]
    · simp only [getAccessToken3, if_neg h]
      cases hok : resp.ok with
      | false => simp [hok, h]
      | true => cases resp.access_token <;> simp [hok, h]
  · intro req
    by_cases h : isTokenValid s now = true
    · simp [getAccessTokenMain, if_pos h]
    · simp only [getAccessTokenMain, if_neg h]
      cases hok : resp.ok with
      | false =>
        simp only [hok]
        intro heq
        simpa using heq.symm
      | true =>
        cases resp.access_token <;>
          · simp only [hok]
            intro heq
            simpa using heq.symm
  · intro req
    by_cases h : s.accessToken ≠ "" ∧ now + 30000 < s.tokenExpiry
    · simp [getAccessToken3, if_pos h]
    · simp only [getAccessToken3, if_neg h]
      cases hok : resp.ok with
      | false =>
        simp only [hok]
        intro heq
        simpa using heq.symm
      | true =>
        cases resp.access_token <;>
          · simp only [hok]
            intro heq
            simpa using heq.symm

/-- C5 witness: on an empty cache both clients perform the credential
exchange, and the request they build is the `Basic base64(ck:cs)` GET
against the OAuth endpoint. -/
theorem c5_witness :
    (getAccessToken3 cfgDemo ⟨"", 0⟩ 0 respOkDemo).2.2
      = some ⟨tokenUrl cfgDemo, basicAuth cfgDemo⟩
    ∧ (⟨tokenUrl cfgDemo, basicAuth cfgDemo⟩ : FetchRequest)
      = ⟨tokenUrl cfgDemo, basicAuth cfgDemo⟩ := by
  refine ⟨rfl, ?_⟩
  exact (c5_token_cache_condition cfgDemo ⟨"", 0⟩ 0 respOkDemo).2.2.2
    ⟨tokenUrl cfgDemo, basicAuth cfgDemo⟩ rfl

/-- C8 (failing-input run). Acquiring a token with the gateway handing back
"SECRET_TOKEN" makes `getAccessToken` of src/lib/mpesa.ts emit a
`console.info` entry whose `token` field is the raw token value, although
the claim (and §7 of the spec) requires that the token never appear in any
log output. Phone numbers, by contrast, are masked as claimed:
`maskPhoneNumber` reduces "0712345678" to "254712****78", which differs from
both the raw input and the normalized number. -/
theorem c8_raw_token_logged :
    ((getAccessTokenMain cfgDemo ⟨"", 0⟩ 0 respOkDemo).2.2.2.any
      (fun entry => entry.any (fun f => f == ("token", "SECRET_TOKEN")))) = true
    ∧ maskPhoneNumber "0712345678" = Except.ok "254712****78"
    ∧ ("254712****78" : String) ≠ "0712345678"
    ∧ ("254712****78" : String) ≠ "254712345678" := by
  exact ⟨rfl, rfl, by decide, by decide⟩

/-- C9 (failing-input run). Two callers enter `getAccessToken` concurrently
on a fresh client. Caller A finds `tokenLock` null and starts a fetch;
caller B awaits `tokenLock` — created as an already-resolved promise — so B
resumes immediately, still sees no valid token, and starts a second fetch
before A's completes. Under this schedule the client performs 2 token
fetches, where the claim (and the source's own comment, "Implement token
locking to prevent multiple simultaneous token requests") requires exactly
one single-flight fetch. -/
theorem c9_two_concurrent_fetches :
    (runSchedule 0 ("T", 3600) [true, false, false, true, false] concInit).fetchCount = 2
    ∧ (runSchedule 0 ("T", 3600) [true, false, false, true, false] concInit).phaseA
      = CallerPhase.done "T"
    ∧ (runSchedule 0 ("T", 3600) [true, false, false, true, false] concInit).phaseB
      = CallerPhase.done "T" := by
  exact ⟨rfl, rfl, rfl⟩
